import Mathlib

/-!
Verification of the Allusion slide-mode viewer subsystem.

The definitions below are a shallow embedding of the TypeScript sources:
* `SlideView` (`decrImgIndex`, `incrImgIndex`, the preload effect and
  `transitionStart`) from `SlideMode/components/SideView.tsx`;
* `UiStore.setFirstItem` / `UiStore.selectFile` from `stores/UiStore.ts`;
* `ZoomableImage` / `VideoPlayer` / `ImageFallback` from
  `SlideMode/components/`.

JavaScript numbers that only ever hold integral index arithmetic are
embedded as `Int` (all `Int` values are finite, so the `isFinite` guard in
`setFirstItem` is always true in the embedding); dimension and scale
arithmetic is embedded as `ℚ`.  A JavaScript `TypeError` (property access
on `undefined`) is embedded as `Except.error JsError.typeError`.
-/

/-- A `ClientFile` as far as this subsystem observes it: only its identity
is needed by the navigation actions. -/
structure File where
  id : Nat
deriving DecidableEq, Repr

/-- Runtime errors a navigation action can throw: accessing a property of
`undefined` (e.g. `file.id` when `fileList[index]` is out of bounds). -/
inductive JsError where
  | typeError
deriving DecidableEq, Repr

/-- The part of `UiStore` state the slide-mode navigation actions touch:
`firstItem` (index of the first item in the viewport) and the
`fileSelection` set (embedded as a duplicate-free list of file ids). -/
structure UiState where
  firstItem : Int
  fileSelection : List Nat
deriving DecidableEq, Repr

/-- JavaScript array indexing `l[i]`: `undefined` (here `none`) when the
index is negative or past the end. -/
def listGet (l : List α) (i : Int) : Option α :=
  if h : 0 ≤ i ∧ i.toNat < l.length then some (l.get ⟨i.toNat, h.2⟩) else none

/-- `UiStore.setFirstItem(index: number = 0)`: assigns `firstItem` when the
argument is finite, which every `Int` is.  Call sites that pass no argument
get the default `0`. -/
def setFirstItem (s : UiState) (index : Int) : UiState :=
  { s with firstItem := index }

/-- `UiStore.selectFile(file, clear)`: clears the selection when `clear` is
set, then adds `file.id`.  When `file` is `undefined` the property access
`file.id` throws a `TypeError`; the claims below only observe whether the
action throws, so the error carries no state. -/
def selectFile (s : UiState) (file : Option File) (clear : Bool) : Except JsError UiState :=
  let s := if clear then { s with fileSelection := [] } else s
  match file with
  | none => Except.error JsError.typeError
  | some f => Except.ok { s with fileSelection := s.fileSelection.insert f.id }

/-- `SlideView.decrImgIndex`: `index = Math.max(0, firstItem - 1)`, then
`setFirstItem(index)` and `selectFile(fileList[index], true)`. -/
def decrImgIndex (fileList : List File) (s : UiState) : Except JsError UiState :=
  let index := max 0 (s.firstItem - 1)
  let s := setFirstItem s index
  selectFile s (listGet fileList index) true

/-- `SlideView.incrImgIndex`: `index = Math.min(firstItem + 1,
fileList.length - 1)`, then `setFirstItem()` — the source passes NO
argument here, so `setFirstItem`'s default `0` is assigned — and
`selectFile(fileList[index], true)`. -/
def incrImgIndex (fileList : List File) (s : UiState) : Except JsError UiState :=
  let index := min (s.firstItem + 1) ((fileList.length : Int) - 1)
  let s := setFirstItem s 0
  selectFile s (listGet fileList index) true

/-- A three-element file list used to evaluate the navigation actions. -/
def threeFiles : List File := [⟨0⟩, ⟨1⟩, ⟨2⟩]

/-- A two-element file list used to evaluate the navigation actions. -/
def twoFiles : List File := [⟨0⟩, ⟨1⟩]

/-- Claim C1: the claim states that `next()` at the last index is a no-op
on the index, and that on a 3-item list starting at index 1 the sequence
`prev(), prev(), next()` yields indices 0, 0, 1.  Evaluating the embedded
code refutes both parts: because `incrImgIndex` calls `setFirstItem()`
without its computed `index`, the default argument `0` is assigned, so
`next()` at the last index 2 sets the index to 0, and the example sequence
yields final index 0 instead of 1. -/
theorem incrImgIndex_at_last_index_resets_to_zero :
    (incrImgIndex threeFiles { firstItem := 2, fileSelection := [] }).map UiState.firstItem
      = Except.ok 0 ∧
    (((decrImgIndex threeFiles { firstItem := 1, fileSelection := [] }).bind
        (decrImgIndex threeFiles)).bind (incrImgIndex threeFiles)).map UiState.firstItem
      = Except.ok 0 :=
  ⟨rfl, rfl⟩

/-- `createDimension(width, height)` from `SlideMode/utils`: used at every
call site as the pair whose components are read back as `dimension[0]` and
`dimension[1]`. -/
def createDimension (width height : ℚ) : ℚ × ℚ :=
  (width, height)

/-- The `minScale` computed in `ZoomableImage` (ZoombableImage.tsx line 88):
`Math.min(0.1, Math.min(width / dimension[0], height / dimension[1]))`,
where `dimension` is the displayed content dimension. -/
def zoomMinScale (width height dimW dimH : ℚ) : ℚ :=
  min (1 / 10) (min (width / dimW) (height / dimH))

/-- The `maxScale` passed to `ZoomPan` by both `ZoomableImage` and
`VideoPlayer`: the literal `5`. -/
def zoomMaxScale : ℚ := 5

/-- The `minScale` computed in `VideoPlayer` (VideoPlayer.tsx lines 25-26):
`dimension = createDimension(width, height)` — the container's own
dimensions — then
`Math.min(0.1, Math.min(width / dimension[0], height / dimension[1]))`. -/
def videoPlayerMinScale (width height : ℚ) : ℚ :=
  let dimension := createDimension width height
  min (1 / 10) (min (width / dimension.1) (height / dimension.2))

/-- Claim C2: the claim states that `prev()` sets the index to
`max(0, index - 1)` (which the code does) and that `next()` never wraps
around past either end.  Evaluating the embedded code shows that on a
2-item list at the last index 1, `next()` sets the index to 0 — the
wraparound result — because `incrImgIndex` calls `setFirstItem()` without
its computed `index` and the default `0` is assigned. -/
theorem incrImgIndex_wraps_to_start :
    (decrImgIndex twoFiles { firstItem := 1, fileSelection := [] }).map UiState.firstItem
      = Except.ok 0 ∧
    (incrImgIndex twoFiles { firstItem := 1, fileSelection := [] }).map UiState.firstItem
      = Except.ok 0 :=
  ⟨rfl, rfl⟩

/-- Claim C3: for strictly positive container dimensions and content
dimensions, the `minScale` computed by `ZoomableImage` equals the smaller
of the fixed floor `0.1` and the fit-to-container ratio
`min(width / dimW, height / dimH)`, the `maxScale` is the fixed ceiling
`5`, and `0 < minScale ≤ maxScale`. -/
theorem zoomableImage_scale_bounds (width height dimW dimH : ℚ)
    (hw : 0 < width) (hh : 0 < height) (hdw : 0 < dimW) (hdh : 0 < dimH) :
    zoomMinScale width height dimW dimH
      = min (1 / 10) (min (width / dimW) (height / dimH)) ∧
    zoomMaxScale = 5 ∧
    0 < zoomMinScale width height dimW dimH ∧
    zoomMinScale width height dimW dimH ≤ zoomMaxScale := by
  refine ⟨rfl, rfl, ?_, ?_⟩
  · exact lt_min (by norm_num) (lt_min (div_pos hw hdw) (div_pos hh hdh))
  · exact le_trans (min_le_left _ _) (by norm_num [zoomMaxScale])

/-- Witness for C3 at container 4×3 and content 2×1. -/
theorem zoomableImage_scale_bounds_witness :
    ((0:ℚ) < 4 ∧ (0:ℚ) < 3 ∧ (0:ℚ) < 2 ∧ (0:ℚ) < 1) ∧
    (zoomMinScale 4 3 2 1 = min (1 / 10) (min ((4:ℚ) / 2) ((3:ℚ) / 1)) ∧
      zoomMaxScale = 5 ∧
      0 < zoomMinScale 4 3 2 1 ∧
      zoomMinScale 4 3 2 1 ≤ zoomMaxScale) :=
  ⟨⟨by norm_num, by norm_num, by norm_num, by norm_num⟩,
    zoomableImage_scale_bounds 4 3 2 1 (by norm_num) (by norm_num) (by norm_num) (by norm_num)⟩

/-- Claim C10: `VideoPlayer` passes the container's own dimensions as the
content dimension, so the fit-to-container ratio is exactly `1` and the
computed `minScale` equals the fixed floor `0.1`, independent of the
video's natural dimensions. -/
theorem videoPlayer_minScale_is_floor (width height : ℚ)
    (hw : 0 < width) (hh : 0 < height) :
    createDimension width height = (width, height) ∧
    min (width / width) (height / height) = 1 ∧
    videoPlayerMinScale width height = 1 / 10 := by
  have hw1 : width / width = 1 := div_self hw.ne'
  have hh1 : height / height = 1 := div_self hh.ne'
  refine ⟨rfl, ?_, ?_⟩
  · rw [hw1, hh1, min_self]
  · show min (1 / 10 : ℚ) (min (width / width) (height / height)) = 1 / 10
    rw [hw1, hh1, min_self]
    norm_num

/-- Witness for C10 at container 7×3. -/
theorem videoPlayer_minScale_is_floor_witness :
    ((0:ℚ) < 7 ∧ (0:ℚ) < 3) ∧
    (createDimension 7 3 = (7, 3) ∧
      min ((7:ℚ) / 7) ((3:ℚ) / 3) = 1 ∧
      videoPlayerMinScale 7 3 = 1 / 10) :=
  ⟨⟨by norm_num, by norm_num⟩,
    videoPlayer_minScale_is_floor 7 3 (by norm_num) (by norm_num)⟩

/-- Helper: JavaScript indexing succeeds exactly on in-range indices. -/
theorem listGet_eq_some_of_range (l : List α) (i : Int)
    (h0 : 0 ≤ i) (hlt : i < (l.length : Int)) :
    ∃ a, listGet l i = some a := by
  have h : 0 ≤ i ∧ i.toNat < l.length := ⟨h0, by omega⟩
  exact ⟨_, dif_pos h⟩

/-- Counterexample for claim C6: on an EMPTY file list, `prev()` is not a
total operation — `decrImgIndex` evaluates `selectFile(fileList[0], true)`
with `fileList[0] = undefined`, and the access `file.id` throws a
`TypeError`. -/
theorem decrImgIndex_throws_on_empty_list :
    decrImgIndex ([] : List File) { firstItem := 0, fileSelection := [] }
      = Except.error JsError.typeError :=
  rfl

/-- Claim C6 (amended): for every NON-EMPTY file list and current index
within `[0, length - 1]`, both `prev()` (`decrImgIndex`) and `next()`
(`incrImgIndex`) are total synchronous operations that succeed without
throwing; on an empty file list they throw (see the counterexample). -/
theorem navigation_total_on_nonempty (fileList : List File) (s : UiState)
    (hne : fileList ≠ []) (h0 : 0 ≤ s.firstItem)
    (hlt : s.firstItem < (fileList.length : Int)) :
    (∃ u, decrImgIndex fileList s = Except.ok u) ∧
    (∃ u, incrImgIndex fileList s = Except.ok u) := by
  have hlen : 1 ≤ (fileList.length : Int) := by
    have : fileList.length ≠ 0 := fun h => hne (List.eq_nil_of_length_eq_zero h)
    omega
  constructor
  · obtain ⟨a, ha⟩ :=
      listGet_eq_some_of_range fileList (max 0 (s.firstItem - 1)) (le_max_left _ _) (by omega)
    refine ⟨{ firstItem := max 0 (s.firstItem - 1), fileSelection := [a.id] }, ?_⟩
    simp [decrImgIndex, selectFile, setFirstItem, ha]
  · obtain ⟨a, ha⟩ :=
      listGet_eq_some_of_range fileList (min (s.firstItem + 1) ((fileList.length : Int) - 1))
        (by omega) (by omega)
    refine ⟨{ firstItem := 0, fileSelection := [a.id] }, ?_⟩
    simp [incrImgIndex, selectFile, setFirstItem, ha]

/-- Witness for C6 (amended) on a singleton file list at index 0. -/
theorem navigation_total_on_nonempty_witness :
    (([⟨0⟩] : List File) ≠ [] ∧ (0:Int) ≤ 0 ∧ (0:Int) < (([⟨0⟩] : List File).length : Int)) ∧
    ((∃ u, decrImgIndex [⟨0⟩] { firstItem := 0, fileSelection := [] } = Except.ok u) ∧
      (∃ u, incrImgIndex [⟨0⟩] { firstItem := 0, fileSelection := [] } = Except.ok u)) :=
  ⟨⟨by decide, by decide, by decide⟩,
    navigation_total_on_nonempty [⟨0⟩] { firstItem := 0, fileSelection := [] }
      (by decide) (by decide) (by decide)⟩

/-- Modelled from the spec: the `UiStore` revision that `SlideView` is
written against (it references `uiStore.firstFileInView`, `upscaleMode`
and `inspectorWidth`, none of which exist in the `UiStore` present in the
snapshot) is missing from the sources, and with it the logic that keeps
the viewport consistent when the externally-owned file list is mutated.
Per the spec, "out-of-range index is clamped back into range", i.e. into
`[0, length - 1]`. -/
def clampFirstItem (len : Nat) (i : Int) : Int :=
  min (max i 0) ((len : Int) - 1)

/-- The re-clamp applied to the stored `firstItem` after a mutation of the
file list, expressed through the source's `setFirstItem` setter. -/
def reclampOnMutation (fileList : List File) (s : UiState) : UiState :=
  setFirstItem s (clampFirstItem fileList.length s.firstItem)

/-- Claim C7: after any mutation that leaves the current index out of
range, re-clamping puts `firstItem` back into `[0, length - 1]` (for a
non-empty list), and an index that is already in range is left unchanged. -/
theorem reclampOnMutation_restores_range (fileList : List File) (s : UiState)
    (hne : fileList ≠ []) :
    (0 ≤ (reclampOnMutation fileList s).firstItem ∧
      (reclampOnMutation fileList s).firstItem < (fileList.length : Int)) ∧
    (0 ≤ s.firstItem → s.firstItem < (fileList.length : Int) →
      (reclampOnMutation fileList s).firstItem = s.firstItem) := by
  have hlen : 1 ≤ (fileList.length : Int) := by
    have : fileList.length ≠ 0 := fun h => hne (List.eq_nil_of_length_eq_zero h)
    omega
  unfold reclampOnMutation clampFirstItem setFirstItem
  refine ⟨⟨?_, ?_⟩, fun h0 hlt => ?_⟩ <;> simp only <;> omega

/-- Witness for C7: a singleton list with an out-of-range stored index 5 is
clamped back to 0. -/
theorem reclampOnMutation_restores_range_witness :
    (([⟨0⟩] : List File) ≠ []) ∧
    ((0 ≤ (reclampOnMutation [⟨0⟩] { firstItem := 5, fileSelection := [] }).firstItem ∧
      (reclampOnMutation [⟨0⟩] { firstItem := 5, fileSelection := [] }).firstItem
        < (([⟨0⟩] : List File).length : Int)) ∧
    (0 ≤ (5:Int) → (5:Int) < (([⟨0⟩] : List File).length : Int) →
      (reclampOnMutation [⟨0⟩] { firstItem := 5, fileSelection := [] }).firstItem = 5)) :=
  ⟨by decide,
    reclampOnMutation_restores_range [⟨0⟩] { firstItem := 5, fileSelection := [] } (by decide)⟩

/-- The tri-state result of `usePromise` as observed at its call sites in
`ZoomableImage`: `pending` before the computation settles, and
`ready` carrying either the `ok` value or the `err` cause (the source
checks `image.tag === 'ready'` and `'ok' in image.value` /
`'err' in image.value`). -/
inductive LoadedSource (ε α : Type) where
  | pending
  | ready (result : Except ε α)

/-- Modelled from the spec: the `usePromise` hook
(`src/frontend/hooks/usePromise`) is not in the snapshot; per the spec, a
pending resolution carries a request generation that is compared at
completion time.  The state is the current request generation plus the
displayed `LoadedSource`. -/
structure UsePromiseState (ε α : Type) where
  generation : Nat
  value : LoadedSource ε α

/-- Modelled from the spec: issuing a new resolution request (the subject
item changed) bumps the generation, resets the displayed result to
`pending`, and hands the new generation to the in-flight computation as
its completion token. -/
def usePromiseRequest {ε α : Type} (s : UsePromiseState ε α) : UsePromiseState ε α × Nat :=
  ({ generation := s.generation + 1, value := LoadedSource.pending }, s.generation + 1)

/-- Modelled from the spec: a completion (success or failure, as a typed
`Except` value) is applied only when its token still equals the current
generation; a stale completion leaves the state untouched. -/
def usePromiseComplete {ε α : Type} (s : UsePromiseState ε α) (token : Nat)
    (r : Except ε α) : UsePromiseState ε α :=
  if token = s.generation then { s with value := LoadedSource.ready r } else s

theorem usePromiseComplete_stale {ε α : Type} (s : UsePromiseState ε α) (token : Nat)
    (r : Except ε α) (h : token ≠ s.generation) : usePromiseComplete s token r = s :=
  if_neg h

theorem usePromiseComplete_generation {ε α : Type} (s : UsePromiseState ε α) (token : Nat)
    (r : Except ε α) : (usePromiseComplete s token r).generation = s.generation := by
  unfold usePromiseComplete
  split <;> rfl

/-- Claim C4: when a resolution for item A is superseded by a request for
item B, A's completion token is no longer the current generation, so A's
eventual completion — whether it arrives before or after B's own
completion, and whether it succeeded or failed — never mutates the
displayed state. -/
theorem usePromise_stale_completion_discarded {ε α : Type} (s : UsePromiseState ε α)
    (rA rB : Except ε α) :
    usePromiseComplete (usePromiseRequest (usePromiseRequest s).1).1
        (usePromiseRequest s).2 rA
      = (usePromiseRequest (usePromiseRequest s).1).1 ∧
    usePromiseComplete
        (usePromiseComplete (usePromiseRequest (usePromiseRequest s).1).1
          (usePromiseRequest (usePromiseRequest s).1).2 rB)
        (usePromiseRequest s).2 rA
      = usePromiseComplete (usePromiseRequest (usePromiseRequest s).1).1
          (usePromiseRequest (usePromiseRequest s).1).2 rB := by
  have hA : (usePromiseRequest s).2 = s.generation + 1 := rfl
  have hB : (usePromiseRequest (usePromiseRequest s).1).1.generation = s.generation + 2 := rfl
  constructor
  · exact usePromiseComplete_stale _ _ _ (by rw [hA, hB]; omega)
  · exact usePromiseComplete_stale _ _ _
      (by rw [hA, usePromiseComplete_generation, hB]; omega)

/-- `SysPath.basename` as used by `ImageFallback`: the final path
component. -/
def basename (p : String) : String :=
  (p.splitOn "/").getLastD p

/-- The view rendered by the slide-mode image components: either the
fallback (`ImageFallback`, showing the file name and a button whose click
opens the given path in an external application) or a `ZoomPan` view with
the resolved source, content dimension and scale bounds. -/
inductive ImageView where
  | fallback (fileName : String) (openExternalTarget : String)
  | zoomPan (src : String) (dimension : ℚ × ℚ) (minScale maxScale : ℚ)

/-- `ImageFallback(error, absolutePath)` (ImageFallback.tsx): renders
`SysPath.basename(absolutePath)` and a button that opens `absolutePath`
externally.  (The `error ? ... : ...` message text is not modelled.) -/
def imageFallback (absolutePath : String) : ImageView :=
  ImageView.fallback (basename absolutePath) absolutePath

/-- The body of the second `usePromise` computation in `ZoomableImage`
(lines 47-75): on a ready-ok source it probes the browser image for its
natural dimension (`probe` stands for the `Image` element's
`onload`/`onerror`, which can itself fail); on a ready-err source it
re-throws the cause (`throw source.value.err`, an `Except.error` here); on
a pending source it falls back to `thumbnailSrc || absolutePath` with the
file's recorded dimensions. -/
def imagePromiseComputation {ε : Type} (source : LoadedSource ε String)
    (absolutePath thumbnailSrc : String) (imgWidth imgHeight : ℚ)
    (probe : String → Except ε (ℚ × ℚ)) : Except ε (String × ℚ × ℚ) :=
  match source with
  | LoadedSource.ready (Except.ok src) => (probe src).map (fun dim => (src, dim))
  | LoadedSource.ready (Except.error e) => Except.error e
  | LoadedSource.pending =>
      Except.ok (if thumbnailSrc = "" then absolutePath else thumbnailSrc, imgWidth, imgHeight)

/-- The render branch of `ZoomableImage` (lines 78-113): a ready-err
result renders `ImageFallback`; otherwise the resolved (or placeholder)
source and dimension feed `ZoomPan` with the computed `minScale` and the
fixed `maxScale`. -/
def renderZoomableImage {ε : Type} (image : LoadedSource ε (String × ℚ × ℚ))
    (absolutePath thumbnailSrc : String) (imgWidth imgHeight width height : ℚ) : ImageView :=
  match image with
  | LoadedSource.ready (Except.error _) => imageFallback absolutePath
  | LoadedSource.ready (Except.ok (src, dim)) =>
      ImageView.zoomPan src dim (zoomMinScale width height dim.1 dim.2) zoomMaxScale
  | LoadedSource.pending =>
      let src := if thumbnailSrc = "" then absolutePath else thumbnailSrc
      let dim := createDimension imgWidth imgHeight
      ImageView.zoomPan src dim (zoomMinScale width height dim.1 dim.2) zoomMaxScale

/-- Claim C5: a failed resolution flows through the pipeline as a typed
value, never as an escaping exception: the computation yields
`Except.error e`, applying that completion stores the terminal
ready-err variant of `LoadedSource`, and rendering that variant yields the
fallback view showing `basename absolutePath` and offering the
open-in-external-application action on `absolutePath`. -/
theorem resolution_failure_typed_error_and_fallback {ε : Type}
    (s : UsePromiseState ε (String × ℚ × ℚ)) (e : ε)
    (absolutePath thumbnailSrc : String) (imgWidth imgHeight width height : ℚ)
    (probe : String → Except ε (ℚ × ℚ)) :
    imagePromiseComputation (LoadedSource.ready (Except.error e))
        absolutePath thumbnailSrc imgWidth imgHeight probe = Except.error e ∧
    (usePromiseComplete s s.generation (Except.error e)).value
      = LoadedSource.ready (Except.error e) ∧
    renderZoomableImage (LoadedSource.ready (Except.error e))
        absolutePath thumbnailSrc imgWidth imgHeight width height
      = ImageView.fallback (basename absolutePath) absolutePath := by
  refine ⟨rfl, ?_, rfl⟩
  simp [usePromiseComplete]

/-- The state the `SlideView` preload effect (SideView.tsx lines 93-115)
can reach: the displayed navigation state (`uiStore`) and the `src` of the
offscreen `Image` element created for preloading.  Failure of
`imageLoader.getImageSrc` is delivered as a resolved `none` (the call
sites treat its result as `src ?? thumbnailPath` / `src && ...`). -/
structure SlideViewState where
  ui : UiState
  preloadImgSrc : Option String

/-- The preload completion handler
`(src) => isEffectRunning && src && (img.src = encodeFilePath(src))`:
when the effect is still live and a non-empty source arrived, it assigns
the encoded path to the offscreen image; in every other case (including a
failed resolution, `src = none`) it does nothing.  `encode` stands for
`encodeFilePath` from `common/fs` (not in the snapshot). -/
def preloadCompletion (encode : String → String) (isEffectRunning : Bool)
    (s : SlideViewState) (src : Option String) : SlideViewState :=
  match src with
  | none => s
  | some u =>
      if isEffectRunning ∧ u ≠ "" then { s with preloadImgSrc := some (encode u) } else s

/-- Claim C8: preloading is fire-and-forget — the completion handler is a
total function (no error escapes it), it never touches the displayed
navigation state whatever the outcome, and a failed preload resolution
changes nothing at all. -/
theorem preload_completion_preserves_displayed_view (encode : String → String)
    (running : Bool) (s : SlideViewState) (src : Option String) :
    (preloadCompletion encode running s src).ui = s.ui ∧
    preloadCompletion encode running s none = s := by
  refine ⟨?_, rfl⟩
  cases src with
  | none => rfl
  | some u =>
      simp only [preloadCompletion]
      split <;> rfl

/-- A slide transform as produced by `createTransform(top, left, scale)`:
the position and scale of the viewed content. -/
structure SlideTransform where
  top : ℚ
  left : ℚ
  scale : ℚ
deriving DecidableEq, Repr

/-- `createTransform(top, left, scale)` from `SlideMode/utils`, as used by
`SlideView.transitionStart`. -/
def createTransform (top left scale : ℚ) : SlideTransform :=
  ⟨top, left, scale⟩

/-- `SlideView.transitionStart` (SideView.tsx lines 117-134): the start
rectangle of the enter transition, built from the thumbnail's and the
gallery container's bounding rectangles:
`createTransform(thumbTop - containerTop, thumbLeft - containerLeft,
thumbHeight / file.height)`. -/
def transitionStartRect (thumbTop thumbLeft thumbHeight : ℚ)
    (containerTop containerLeft : ℚ) (fileHeight : ℚ) : SlideTransform :=
  createTransform (thumbTop - containerTop) (thumbLeft - containerLeft)
    (thumbHeight / fileHeight)

/-- Modelled from the spec: the `ZoomPan` transition engine
(`SlideMode/ZoomPan`) is not in the snapshot; per the spec it
"interpolates position and scale over a fixed duration" between the start
and end rectangles, i.e. linear interpolation in the transition parameter
`t ∈ [0, 1]`. -/
def interpolateTransform (start finish : SlideTransform) (t : ℚ) : SlideTransform :=
  { top := start.top + t * (finish.top - start.top),
    left := start.left + t * (finish.left - start.left),
    scale := start.scale + t * (finish.scale - start.scale) }

/-- Claim C9: the transition interpolation reproduces the start rectangle
exactly at `t = 0` and the end rectangle exactly at `t = 1`; in
particular this holds for every start rectangle produced by
`transitionStartRect`. -/
theorem transition_interpolation_endpoints (s e : SlideTransform) :
    interpolateTransform s e 0 = s ∧ interpolateTransform s e 1 = e := by
  obtain ⟨st, sl, ss⟩ := s
  obtain ⟨et, el, es⟩ := e
  constructor <;> simp only [interpolateTransform, SlideTransform.mk.injEq] <;>
    refine ⟨by ring, by ring, by ring⟩
